import Mathlib

/-! Verification of the generic normalization graph builders in
`apex/normalization/instance_norm.py` (`norm_fusion_forward`,
`norm_fusion_backward`) and of the output-registration logic of
`NormNVFuserFunction.backward`, over a shallow embedding with
rational-valued tensors.  The only numeric operation left abstract is the
pointwise reciprocal square root (`fd.ops.rsqrt`), which is irrational;
it is passed as a function parameter, and every statement below holds for
all of its values. -/

/-- A tensor: a shape together with a total valuation of multi-indices.
Indices are lists of coordinates; `data` is total, and only values at
indices bounded by `shape` are meaningful. -/
structure Tensor where
  shape : List ℕ
  data : List ℕ → ℚ

/-- Coordinates of `idx` at the positions listed in `dims` (in that order). -/
def selectDims (dims idx : List ℕ) : List ℕ :=
  dims.map fun d => idx.getD d 0

/-- Drop from `idx` the positions appearing in `axes`. -/
def removeDims (axes idx : List ℕ) : List ℕ :=
  ((List.range idx.length).filter fun p => ¬ p ∈ axes).map fun p => idx.getD p 0

/-- All multi-indices bounded by a shape. -/
def allIdx : List ℕ → List (List ℕ)
  | [] => [[]]
  | d :: ds => ((List.range d).map fun i => (allIdx ds).map fun r => i :: r).flatten

/-- Rebuild a full index: walking positions `pos, pos+1, ...`, a position in
`axes` consumes the next coordinate of `av`, any other position consumes the
next coordinate of `rv`. -/
def mergeIdxAux (axes : List ℕ) : ℕ → ℕ → List ℕ → List ℕ → List ℕ
  | _, 0, _, _ => []
  | pos, k + 1, av, rv =>
    if pos ∈ axes then av.headD 0 :: mergeIdxAux axes (pos + 1) k av.tail rv
    else rv.headD 0 :: mergeIdxAux axes (pos + 1) k av rv.tail

/-- Full index of rank `n` with `av` at positions `axes` and `rv` elsewhere. -/
def mergeIdx (n : ℕ) (axes av rv : List ℕ) : List ℕ :=
  mergeIdxAux axes 0 n av rv

/-- Product of a list of extents, as a rational scalar. -/
def prodQ (l : List ℕ) : ℚ :=
  (l.map fun e => (Nat.cast e : ℚ)).prod

/-- Pointwise subtraction (`fd.ops.sub` on two tensors). -/
def subT (a b : Tensor) : Tensor := ⟨a.shape, fun i => a.data i - b.data i⟩

/-- Pointwise addition (`fd.ops.add` on two tensors). -/
def addT (a b : Tensor) : Tensor := ⟨a.shape, fun i => a.data i + b.data i⟩

/-- Pointwise multiplication (`fd.ops.mul` on two tensors). -/
def mulT (a b : Tensor) : Tensor := ⟨a.shape, fun i => a.data i * b.data i⟩

/-- Tensor-scalar product (`fd.ops.mul` with a scalar operand). -/
def mulS (t : Tensor) (s : ℚ) : Tensor := ⟨t.shape, fun i => t.data i * s⟩

/-- Tensor-scalar sum (`fd.ops.add` with a scalar operand). -/
def addS (t : Tensor) (s : ℚ) : Tensor := ⟨t.shape, fun i => t.data i + s⟩

/-- Elementwise `fd.ops.rsqrt`; the pointwise reciprocal square root is the
parameter `f`. -/
def rsqrtT (f : ℚ → ℚ) (t : Tensor) : Tensor := ⟨t.shape, fun i => f (t.data i)⟩

/-- `fd.ops.broadcast_in_dim t outShape dims`: dimension `j` of `t` becomes
dimension `dims[j]` of the output. -/
def broadcast_in_dim (t : Tensor) (outShape dims : List ℕ) : Tensor :=
  ⟨outShape, fun i => t.data (selectDims dims i)⟩

/-- `fd.ops.sum` over the listed axes (which are removed from the shape). -/
def sumAxes (t : Tensor) (axes : List ℕ) : Tensor :=
  ⟨removeDims axes t.shape,
   fun r => ((allIdx (selectDims axes t.shape)).map fun av =>
      t.data (mergeIdx t.shape.length axes av r)).sum⟩

/-- Mean over `axes`: the mean component of `fd.ops.var_mean`. -/
def fdMean (t : Tensor) (axes : List ℕ) : Tensor :=
  ⟨removeDims axes t.shape,
   fun r => (sumAxes t axes).data r / prodQ (selectDims axes t.shape)⟩

/-- Variance over `axes` with correction `c` (divisor `N - c`): the variance
component of `fd.ops.var_mean`. -/
def fdVar (t : Tensor) (axes : List ℕ) (correction : ℕ) : Tensor :=
  ⟨removeDims axes t.shape,
   fun r =>
    ((allIdx (selectDims axes t.shape)).map fun av =>
        (t.data (mergeIdx t.shape.length axes av r) - (fdMean t axes).data r) *
          (t.data (mergeIdx t.shape.length axes av r) - (fdMean t axes).data r)).sum
      / (prodQ (selectDims axes t.shape) - (correction : ℚ))⟩

/-- `fd.ops.var_mean t axes correction`. -/
def var_mean (t : Tensor) (axes : List ℕ) (correction : ℕ) : Tensor × Tensor :=
  (fdVar t axes correction, fdMean t axes)

/-- Axis roles (`NamedAxis` in the source). -/
inductive NamedAxis
  | BATCH
  | CHANNEL
deriving DecidableEq

/-- Element types relevant to the control flow (`DataType` in the source). -/
inductive DataType
  | Half
  | BFloat16
  | Float
  | Double
deriving DecidableEq

/-- Numeric cast `fd.ops.cast`.  Values here are exact rationals, so the cast
preserves the value; which casts occur is still mirrored faithfully. -/
def fdCast (_dt : DataType) (t : Tensor) : Tensor := t

/-- Channel dimension: `num_dims - 1 if channels_last else 1`. -/
def channelDim (num_dims : ℕ) (channels_last : Bool) : ℕ :=
  if channels_last then num_dims - 1 else 1

/-- The `stat_dims` list built in the source (batch dim first, then channel). -/
def statDims (stat_axes : List NamedAxis) (num_dims : ℕ) (channels_last : Bool) : List ℕ :=
  (if NamedAxis.BATCH ∈ stat_axes then [0] else []) ++
    (if NamedAxis.CHANNEL ∈ stat_axes then [channelDim num_dims channels_last] else [])

/-- The `stat_dims_nobatch` list built in the source. -/
def statDimsNoBatch (stat_axes : List NamedAxis) (num_dims : ℕ) (channels_last : Bool) :
    List ℕ :=
  if NamedAxis.CHANNEL ∈ stat_axes then [channelDim num_dims channels_last] else []

/-- `x_reduction_axes`: all axes not in `stat_dims`. -/
def reductionAxes (stat_axes : List NamedAxis) (num_dims : ℕ) (channels_last : Bool) :
    List ℕ :=
  (List.range num_dims).filter fun ax => ¬ ax ∈ statDims stat_axes num_dims channels_last

/-- `num_features`: product of the input extents over the reduction axes
(built in the source by folding `fd.ops.mul` over scalar sizes). -/
def numFeaturesQ (shape axes : List ℕ) : ℚ := prodQ (selectDims axes shape)

/-- `batch_size = dyn_shape[0]` as a scalar. -/
def batchSizeQ (shape : List ℕ) : ℚ := ((shape.getD 0 0 : ℕ) : ℚ)

/-- The broadcast dimension list `[batch_dim, channel_dim]` that
`norm_fusion_backward` uses for every one of its statistics broadcasts
(saved mean, grad mean, projection scale, inverse std). -/
def bwdBcastDims (num_dims : ℕ) (channels_last : Bool) : List ℕ :=
  [0, channelDim num_dims channels_last]

/-- Target of an aliasing `fd.add_output(v, alias_input=...)` call. -/
inductive AliasTarget
  | runningMean
  | runningVar
deriving DecidableEq, BEq

/-- An aliasing write emitted while building the fusion graph. -/
structure AliasWrite where
  target : AliasTarget
  value : Tensor

/-- The running-statistic update block of `norm_fusion_forward` (performed
once for the mean, lines 146-162, and once for the variance, lines 173-187):
momentum merge, sum over the batch dim when BATCH is a stat axis,
unconditional multiplication by `1/batch_size`, and a downcast for
reduced-precision inputs. -/
def update_running_stat (stat_axes : List NamedAxis) (momentum rev_batch_size : ℚ)
    (x_datatype : DataType) (current running : Tensor) : Tensor :=
  let one : ℚ := 1
  let rev_momentum := one - momentum
  let current_hat := mulS current momentum
  let hat := mulS running rev_momentum
  let new_hat := addT hat current_hat
  let new_sum := if NamedAxis.BATCH ∈ stat_axes then sumAxes new_hat [0] else new_hat
  let new_channels_only := mulS new_sum rev_batch_size
  if x_datatype ∈ [DataType.Half, DataType.BFloat16] then
    fdCast x_datatype new_channels_only
  else new_channels_only

/-- Result of `norm_fusion_forward`: the returned triple plus the aliasing
writes emitted via `fd.add_output(..., alias_input=...)`. -/
structure ForwardResult where
  x_normed : Tensor
  mean : Tensor
  invstd : Tensor
  alias_writes : List AliasWrite

/-- Shallow embedding of `norm_fusion_forward`.  The initial `assert` is
modelled as an `Except.error`; `rsqrtFn` stands for the pointwise function
computed by `fd.ops.rsqrt`. -/
def norm_fusion_forward (rsqrtFn : ℚ → ℚ) (x : Tensor)
    (weight bias running_mean running_var : Option Tensor)
    (eps : ℚ) (use_input_stats : Bool) (momentum : ℚ)
    (channels_last : Bool) (x_datatype : DataType) (unbiased : Bool)
    (stat_axes : List NamedAxis) : Except String ForwardResult :=
  if running_var.isNone != running_mean.isNone then
    .error "Iff running mean or var is given, the other should be"
  else
    let dyn_shape := x.shape
    let num_dims := dyn_shape.length
    let batch_size := batchSizeQ dyn_shape
    let stat_dims := statDims stat_axes num_dims channels_last
    let stat_dims_nobatch := statDimsNoBatch stat_axes num_dims channels_last
    let x_reduction_axes := reductionAxes stat_axes num_dims channels_last
    let num_features := numFeaturesQ dyn_shape x_reduction_axes
    let core : Except String (Tensor × Tensor × Tensor × List AliasWrite) :=
      if use_input_stats || running_mean.isNone then
        let xvm := var_mean x x_reduction_axes (if unbiased then 1 else 0)
        let x_var := xvm.1
        let x_mean := xvm.2
        let alias_writes :=
          match running_mean, running_var with
          | some rm, some rv =>
            let rev_batch_size := batch_size⁻¹
            let new_mean_channels_only :=
              update_running_stat stat_axes momentum rev_batch_size x_datatype x_mean rm
            let x_var_unbiased :=
              if !unbiased then
                mulS x_var (num_features / (num_features - 1))
              else x_var
            let new_var_channels_only :=
              update_running_stat stat_axes momentum rev_batch_size x_datatype
                x_var_unbiased rv
            [⟨AliasTarget.runningMean, new_mean_channels_only⟩,
             ⟨AliasTarget.runningVar, new_var_channels_only⟩]
          | _, _ => []
        let mean := x_mean
        let mean_bcast := broadcast_in_dim mean dyn_shape stat_dims
        let x_sub_mean := subT x mean_bcast
        let var_eps := addS x_var eps
        let invstd := rsqrtT rsqrtFn var_eps
        let invstd_bcast := broadcast_in_dim invstd dyn_shape stat_dims
        let x_normed := mulT x_sub_mean invstd_bcast
        .ok (x_normed, mean, invstd, alias_writes)
      else
        match running_mean, running_var with
        | some rm, some rv =>
          let r_mean_bcast := broadcast_in_dim rm dyn_shape stat_dims_nobatch
          let x_sub_mean := subT x r_mean_bcast
          let var_eps := addS rv eps
          let invstd := rsqrtT rsqrtFn var_eps
          let invstd_bcast := broadcast_in_dim invstd dyn_shape stat_dims_nobatch
          let mean := rm
          let x_normed := mulT x_sub_mean invstd_bcast
          .ok (x_normed, mean, invstd, [])
        | _, _ => .error "assert running_mean is not None"
    match core with
    | .error e => .error e
    | .ok (xn, mean, invstd, alias_writes) =>
      let xn := match weight with
        | some w => mulT xn (broadcast_in_dim w dyn_shape stat_dims_nobatch)
        | none => xn
      let xn := match bias with
        | some b => addT xn (broadcast_in_dim b dyn_shape stat_dims_nobatch)
        | none => xn
      .ok ⟨xn, mean, invstd, alias_writes⟩

/-- Result of `norm_fusion_backward`.  Its docstring notes that
`fd.add_output` is not called by the function, so `alias_writes` is empty. -/
structure BackwardResult where
  grad_input : Tensor
  grad_weight_reduced : Option Tensor
  grad_bias_reduced : Option Tensor
  alias_writes : List AliasWrite

/-- Shallow embedding of `norm_fusion_backward`. -/
def norm_fusion_backward (x grad_output mean invstd : Tensor)
    (weight bias running_mean running_var : Option Tensor)
    (use_input_stats : Bool) (channels_last : Bool) (x_datatype : DataType)
    (stat_axes : List NamedAxis) : Except String BackwardResult :=
  if running_var.isNone != running_mean.isNone then
    .error "Iff running mean or var is given, the other should be"
  else
    let dyn_shape := x.shape
    let num_dims := dyn_shape.length
    let x_reduction_axes := reductionAxes stat_axes num_dims channels_last
    let num_features := numFeaturesQ dyn_shape x_reduction_axes
    let mean := broadcast_in_dim mean dyn_shape (bwdBcastDims num_dims channels_last)
    let norm := num_features⁻¹
    let grad_output_sum := sumAxes grad_output x_reduction_axes
    let dot_p := sumAxes (mulT grad_output (subT x mean)) x_reduction_axes
    let grad_mean :=
      broadcast_in_dim (mulS grad_output_sum norm) dyn_shape
        (bwdBcastDims num_dims channels_last)
    let proj_scale :=
      broadcast_in_dim (mulT (mulS dot_p norm) (mulT invstd invstd)) dyn_shape
        (bwdBcastDims num_dims channels_last)
    let invstd_bcast :=
      broadcast_in_dim invstd dyn_shape (bwdBcastDims num_dims channels_last)
    let grad_scale :=
      match weight with
      | none => invstd_bcast
      | some w => mulT invstd_bcast (broadcast_in_dim w dyn_shape [0])
    let grad_input :=
      if use_input_stats then
        let proj := mulT (subT x mean) proj_scale
        mulT (subT (subT grad_output proj) grad_mean) grad_scale
      else
        mulT grad_output grad_scale
    let grad_weight_reduced :=
      match weight with
      | some _w => some (sumAxes (mulT dot_p invstd) [0])
      | none => none
    let grad_bias_reduced :=
      match bias with
      | some _b => some (sumAxes grad_output_sum [0])
      | none => none
    .ok ⟨grad_input, grad_weight_reduced, grad_bias_reduced, []⟩

/-- Tags for the gradient outputs registered by `NormNVFuserFunction.backward`. -/
inductive BwdOutputTag
  | gradInput
  | gradWeight
  | gradBias
deriving DecidableEq

/-- The outputs registered via `fd.add_output` in `NormNVFuserFunction.backward`
(lines 561-574): the input gradient always; the weight gradient whenever a
weight is present; the bias gradient only when a bias is present and the input
element type is not reduced precision (in the Half/BFloat16 branch the bias
gradient is cast but `fd.add_output` is never reached). -/
def backward_outputs_added (weightPresent biasPresent : Bool) (x_datatype : DataType) :
    List BwdOutputTag :=
  let outs := [BwdOutputTag.gradInput]
  let outs := if weightPresent then outs ++ [BwdOutputTag.gradWeight] else outs
  if biasPresent then
    if x_datatype ∈ [DataType.Half, DataType.BFloat16] then outs
    else outs ++ [BwdOutputTag.gradBias]
  else outs

/-- The result-list read-out of `NormNVFuserFunction.backward` (lines 576-588):
`res[c]` with a running cursor; an out-of-range read (Python `IndexError`) is
modelled by `none`. -/
def backward_extract_grad_bias (res : List BwdOutputTag)
    (weightPresent biasPresent : Bool) : Option BwdOutputTag :=
  let c := 1
  let c := if weightPresent then c + 1 else c
  if biasPresent then res.get? c else none

/-- Normalized output of a forward result (junk on the error case). -/
def resOut : Except String ForwardResult → Tensor
  | .ok r => r.x_normed
  | .error _ => ⟨[], fun _ => 0⟩

/-- Mean returned by a forward result (junk on the error case). -/
def resMean : Except String ForwardResult → Tensor
  | .ok r => r.mean
  | .error _ => ⟨[], fun _ => 0⟩

/-- Inverse standard deviation returned by a forward result. -/
def resInvstd : Except String ForwardResult → Tensor
  | .ok r => r.invstd
  | .error _ => ⟨[], fun _ => 0⟩

/-- Targets of the aliasing writes emitted by a forward call. -/
def aliasTargets : Except String ForwardResult → List AliasTarget
  | .ok r => r.alias_writes.map (·.target)
  | .error _ => []

/-- The value written (aliasing the given target) by a forward call, if any. -/
def writeTo (e : Except String ForwardResult) (tgt : AliasTarget) : Option Tensor :=
  match e with
  | .ok r => (r.alias_writes.find? fun w => w.target == tgt).map (·.value)
  | .error _ => none

/-- Aliasing writes emitted by a backward call. -/
def bwdAliasWrites : Except String BackwardResult → List AliasWrite
  | .ok r => r.alias_writes
  | .error _ => []

/-- Input gradient of a backward result (junk on the error case). -/
def bwdGradInput : Except String BackwardResult → Tensor
  | .ok r => r.grad_input
  | .error _ => ⟨[], fun _ => 0⟩

/-- Weight gradient of a backward result. -/
def bwdGradWeight : Except String BackwardResult → Option Tensor
  | .ok r => r.grad_weight_reduced
  | .error _ => none

/-- Bias gradient of a backward result. -/
def bwdGradBias : Except String BackwardResult → Option Tensor
  | .ok r => r.grad_bias_reduced
  | .error _ => none

/-- Whether a graph-construction call failed (assertion error). -/
def isErr : Except String α → Bool
  | .error _ => true
  | .ok _ => false

/-- Value of an optional tensor at an index, with a default for `none`. -/
def optAt (t : Option Tensor) (dflt : ℚ) (idx : List ℕ) : ℚ :=
  match t with
  | some u => u.data idx
  | none => dflt

/-- Shape of an optional tensor. -/
def optShape (t : Option Tensor) : Option (List ℕ) :=
  t.map Tensor.shape

/-- Number of positions `q` with `pos ≤ q < pos + m` and `q ∉ axes`;
this is the index at which `mergeIdxAux` next reads its `rv` stream. -/
def countNotMem (axes : List ℕ) : ℕ → ℕ → ℕ
  | _, 0 => 0
  | pos, m + 1 => (if pos ∈ axes then 0 else 1) + countNotMem axes (pos + 1) m

/-- Example input for the batch-style (`{CHANNEL}`) running-statistics update:
shape `[2, 2]`, channel 1 holding values 2 and 4 (batch mean 3), channel 0 zero. -/
def c1x : Tensor :=
  ⟨[2, 2], fun i => if i = [0, 1] then 2 else if i = [1, 1] then 4 else 0⟩

/-- Zero-initialized running mean for the `c1` example. -/
def c1rm : Tensor := ⟨[2], fun _ => 0⟩

/-- Zero-initialized running variance for the `c1` example. -/
def c1rv : Tensor := ⟨[2], fun _ => 0⟩

/-- Training-mode forward call with role set `{CHANNEL}`, momentum `1/2`,
`unbiased = False`, on `c1x` with zero running statistics. -/
def c1fwd : Except String ForwardResult :=
  norm_fusion_forward (fun q => q) c1x none none (some c1rm) (some c1rv)
    (1/100) true (1/2) false DataType.Float false [NamedAxis.CHANNEL]

/-- Example backward input with role set `{CHANNEL}`: shape `[1, 2]`,
`x[0, c] = c + 2`. -/
def c2x : Tensor := ⟨[1, 2], fun i => ((i.getD 1 0 : ℕ) : ℚ) + 2⟩

/-- All-ones output gradient for the `c2` example. -/
def c2go : Tensor := ⟨[1, 2], fun _ => 1⟩

/-- Zero saved mean (per channel) for the `c2` example. -/
def c2mean : Tensor := ⟨[2], fun _ => 0⟩

/-- All-ones saved inverse standard deviation for the `c2` example. -/
def c2invstd : Tensor := ⟨[2], fun _ => 1⟩

/-- Per-channel weight for the `c2` example. -/
def c2w : Tensor := ⟨[2], fun _ => 1⟩

/-- Per-channel bias for the `c2` example. -/
def c2b : Tensor := ⟨[2], fun _ => 1⟩

/-- Backward call with role set `{CHANNEL}` (batch-style) and both affine
parameters present. -/
def c2bwd : Except String BackwardResult :=
  norm_fusion_backward c2x c2go c2mean c2invstd (some c2w) (some c2b) none none
    true false DataType.Float [NamedAxis.CHANNEL]

/-- Zero input of shape `[2, 2, 1]` for the `c3` example. -/
def c3x : Tensor := ⟨[2, 2, 1], fun _ => 0⟩

/-- All-ones output gradient for the `c3` example. -/
def c3go : Tensor := ⟨[2, 2, 1], fun _ => 1⟩

/-- Zero saved mean (per batch and channel) for the `c3` example. -/
def c3mean : Tensor := ⟨[2, 2], fun _ => 0⟩

/-- All-ones saved inverse standard deviation for the `c3` example. -/
def c3invstd : Tensor := ⟨[2, 2], fun _ => 1⟩

/-- Per-channel weight `[3, 5]` for the `c3` example. -/
def c3w : Tensor := ⟨[2], fun i => 2 * ((i.getD 0 0 : ℕ) : ℚ) + 3⟩

/-- Inference-mode backward call with role set `{BATCH, CHANNEL}` and a
per-channel weight. -/
def c3bwd : Except String BackwardResult :=
  norm_fusion_backward c3x c3go c3mean c3invstd (some c3w) none none none
    false false DataType.Float [NamedAxis.BATCH, NamedAxis.CHANNEL]

/-- Per-slice values for the constant-input example: the value only depends on
the channel coordinate. -/
def c10g : List ℕ → ℚ := fun r => ((r.getD 1 0 : ℕ) : ℚ)

/-- A 4-sample, 3-channel, 1-spatial input that is constant along the
reduction axes of the `{BATCH, CHANNEL}` role set. -/
def c10x : Tensor :=
  ⟨[4, 3, 1], fun j =>
    c10g (selectDims (statDims [NamedAxis.BATCH, NamedAxis.CHANNEL] 3 false) j)⟩

/-- Constant per-channel weight for the constant-input example. -/
def c10w : Tensor := ⟨[3], fun _ => 7⟩

/-- Per-channel bias for the constant-input example. -/
def c10b : Tensor := ⟨[3], fun r => ((r.getD 0 0 : ℕ) : ℚ) + 10⟩

theorem headD_eq_getD (l : List ℕ) : l.headD 0 = l.getD 0 0 := by
  cases l <;> rfl

theorem getD_succ_eq_tail_getD (l : List ℕ) (c : ℕ) :
    l.getD (c + 1) 0 = l.tail.getD c 0 := by
  cases l <;> rfl

theorem mergeIdxAux_getD (axes : List ℕ) (k : ℕ) :
    ∀ (pos d : ℕ) (av rv : List ℕ), pos ≤ d → d < pos + k → ¬ d ∈ axes →
      (mergeIdxAux axes pos k av rv).getD (d - pos) 0
        = rv.getD (countNotMem axes pos (d - pos)) 0 := by
  induction k with
  | zero => intro pos d av rv hlo hhi _; omega
  | succ k ih =>
    intro pos d av rv hlo hhi hd
    by_cases hpos : pos ∈ axes
    · have hne : d ≠ pos := fun h => hd (h ▸ hpos)
      have h1 : d - pos = (d - (pos + 1)) + 1 := by omega
      rw [mergeIdxAux, if_pos hpos, h1, List.getD_cons_succ, countNotMem, if_pos hpos,
        Nat.zero_add]
      exact ih (pos + 1) d av.tail rv (by omega) (by omega) hd
    · by_cases hdp : d = pos
      · subst hdp
        rw [mergeIdxAux, if_neg hpos, Nat.sub_self, List.getD_cons_zero]
        exact headD_eq_getD rv
      · have h1 : d - pos = (d - (pos + 1)) + 1 := by omega
        rw [mergeIdxAux, if_neg hpos, h1, List.getD_cons_succ, countNotMem, if_neg hpos,
          ih (pos + 1) d av rv.tail (by omega) (by omega) hd,
          Nat.add_comm 1, getD_succ_eq_tail_getD]

theorem mergeIdx_getD (axes : List ℕ) (n d : ℕ) (av rv : List ℕ)
    (hd : d < n) (hmem : ¬ d ∈ axes) :
    (mergeIdx n axes av rv).getD d 0 = rv.getD (countNotMem axes 0 d) 0 := by
  have h := mergeIdxAux_getD axes n 0 d av rv (Nat.zero_le d) (by omega) hmem
  simpa [mergeIdx] using h

theorem countNotMem_eq_zero (axes : List ℕ) (m : ℕ) :
    ∀ pos : ℕ, (∀ q, pos ≤ q → q < pos + m → q ∈ axes) → countNotMem axes pos m = 0 := by
  induction m with
  | zero => intro pos _; rfl
  | succ m ih =>
    intro pos h
    rw [countNotMem, if_pos (h pos le_rfl (by omega)), Nat.zero_add]
    exact ih (pos + 1) fun q h1 h2 => h q (by omega) (by omega)

theorem countNotMem_eq_one (axes : List ℕ) (cd : ℕ) (hcd : 0 < cd)
    (h0 : ¬ 0 ∈ axes) (h : ∀ q, 1 ≤ q → q < cd → q ∈ axes) :
    countNotMem axes 0 cd = 1 := by
  obtain ⟨m, rfl⟩ : ∃ m, cd = m + 1 := ⟨cd - 1, by omega⟩
  rw [countNotMem, if_neg h0,
    countNotMem_eq_zero axes m (0 + 1) fun q h1 h2 => h q (by omega) (by omega)]

theorem mem_reductionAxes {sa : List NamedAxis} {n : ℕ} {cl : Bool} {q : ℕ} :
    q ∈ reductionAxes sa n cl ↔ q < n ∧ ¬ q ∈ statDims sa n cl := by
  simp [reductionAxes, List.mem_filter, List.mem_range]

theorem statDims_not_mem_reduction {sa : List NamedAxis} {n : ℕ} {cl : Bool} {d : ℕ}
    (h : d ∈ statDims sa n cl) : ¬ d ∈ reductionAxes sa n cl := by
  rw [mem_reductionAxes]
  exact fun hc => hc.2 h

theorem channelDim_pos {n : ℕ} {cl : Bool} (hn : 2 ≤ n) : 0 < channelDim n cl := by
  unfold channelDim
  split <;> omega

theorem channelDim_lt {n : ℕ} {cl : Bool} (hn : 2 ≤ n) : channelDim n cl < n := by
  unfold channelDim
  split <;> omega

theorem allIdx_length (s : List ℕ) : (allIdx s).length = s.prod := by
  induction s with
  | nil => rfl
  | cons d ds ih =>
    simp [allIdx, List.length_flatten, List.map_map, Function.comp_def, ih,
      Nat.mul_comm]

theorem sum_map_constQ (l : List (List ℕ)) (c : ℚ) :
    (l.map fun _ => c).sum = (l.length : ℚ) * c := by
  induction l with
  | nil => simp
  | cons a l ih =>
    simp [ih]
    ring

theorem prodQ_eq_cast (l : List ℕ) : prodQ l = ((l.prod : ℕ) : ℚ) := by
  induction l with
  | nil => simp [prodQ]
  | cons a l ih =>
    rw [prodQ, List.map_cons, List.prod_cons, List.prod_cons]
    rw [prodQ] at ih
    rw [ih]
    push_cast
    ring

theorem selectDims_statDims_mergeIdx (sa : List NamedAxis) (cl : Bool) (n : ℕ)
    (hn : 2 ≤ n) (av i : List ℕ) :
    selectDims (statDims sa n cl) (mergeIdx n (reductionAxes sa n cl) av
        (selectDims (statDims sa n cl) i))
      = selectDims (statDims sa n cl) i := by
  have hcd0 : 0 < channelDim n cl := channelDim_pos hn
  have hcdn : channelDim n cl < n := channelDim_lt hn
  by_cases hB : NamedAxis.BATCH ∈ sa <;> by_cases hC : NamedAxis.CHANNEL ∈ sa
  · have hsd : statDims sa n cl = [0, channelDim n cl] := by
      simp [statDims, hB, hC]
    rw [hsd]
    have h0 : ¬ 0 ∈ reductionAxes sa n cl :=
      statDims_not_mem_reduction (by rw [hsd]; simp)
    have hcd : ¬ channelDim n cl ∈ reductionAxes sa n cl :=
      statDims_not_mem_reduction (by rw [hsd]; simp)
    have hmid : ∀ q, 1 ≤ q → q < channelDim n cl → q ∈ reductionAxes sa n cl := by
      intro q h1 h2
      rw [mem_reductionAxes, hsd]
      constructor
      · omega
      · simp
        omega
    simp only [selectDims, List.map_cons, List.map_nil]
    rw [mergeIdx_getD _ n 0 _ _ (by omega) h0,
      mergeIdx_getD _ n (channelDim n cl) _ _ hcdn hcd,
      countNotMem_eq_one _ _ hcd0 h0 hmid]
    rfl
  · have hsd : statDims sa n cl = [0] := by
      simp [statDims, hB, hC]
    rw [hsd]
    have h0 : ¬ 0 ∈ reductionAxes sa n cl :=
      statDims_not_mem_reduction (by rw [hsd]; simp)
    simp only [selectDims, List.map_cons, List.map_nil]
    rw [mergeIdx_getD _ n 0 _ _ (by omega) h0]
    rfl
  · have hsd : statDims sa n cl = [channelDim n cl] := by
      simp [statDims, hB, hC]
    rw [hsd]
    have hcd : ¬ channelDim n cl ∈ reductionAxes sa n cl :=
      statDims_not_mem_reduction (by rw [hsd]; simp)
    have hall : ∀ q, 0 ≤ q → q < 0 + channelDim n cl → q ∈ reductionAxes sa n cl := by
      intro q _ h2
      rw [mem_reductionAxes, hsd]
      constructor
      · omega
      · simp
        omega
    simp only [selectDims, List.map_cons, List.map_nil]
    rw [mergeIdx_getD _ n (channelDim n cl) _ _ hcdn hcd,
      countNotMem_eq_zero _ _ 0 hall]
    rfl
  · have hsd : statDims sa n cl = [] := by
      simp [statDims, hB, hC]
    rw [hsd]
    rfl

theorem fdMean_of_stat_const (sa : List NamedAxis) (cl : Bool) (x : Tensor)
    (g : List ℕ → ℚ)
    (hn : 2 ≤ x.shape.length)
    (hx : ∀ j, x.data j = g (selectDims (statDims sa x.shape.length cl) j))
    (hF : 0 < (selectDims (reductionAxes sa x.shape.length cl) x.shape).prod)
    (i : List ℕ) :
    (fdMean x (reductionAxes sa x.shape.length cl)).data
        (selectDims (statDims sa x.shape.length cl) i)
      = g (selectDims (statDims sa x.shape.length cl) i) := by
  have hpoint : ∀ av,
      x.data (mergeIdx x.shape.length (reductionAxes sa x.shape.length cl) av
        (selectDims (statDims sa x.shape.length cl) i))
        = g (selectDims (statDims sa x.shape.length cl) i) := by
    intro av
    rw [hx, selectDims_statDims_mergeIdx sa cl x.shape.length hn]
  simp only [fdMean, sumAxes]
  rw [List.map_congr_left fun av _ => hpoint av, sum_map_constQ, allIdx_length,
    prodQ_eq_cast]
  have hne : (((selectDims (reductionAxes sa x.shape.length cl) x.shape).prod : ℕ) : ℚ) ≠ 0 := by
    rw [Nat.cast_ne_zero]
    omega
  rw [mul_comm, mul_div_assoc, div_self hne, mul_one]

theorem writeTo_train_runningMean (f : ℚ → ℚ) (x rm rv : Tensor) (w b : Option Tensor)
    (eps mom : ℚ) (cl : Bool) (dt : DataType) (ub : Bool) (sa : List NamedAxis) :
    writeTo (norm_fusion_forward f x w b (some rm) (some rv) eps true mom cl dt ub sa)
        AliasTarget.runningMean
      = some (update_running_stat sa mom (batchSizeQ x.shape)⁻¹ dt
          (fdMean x (reductionAxes sa x.shape.length cl)) rm) := rfl

theorem writeTo_train_runningVar_unbiased (f : ℚ → ℚ) (x rm rv : Tensor)
    (w b : Option Tensor) (eps mom : ℚ) (cl : Bool) (dt : DataType)
    (sa : List NamedAxis) :
    writeTo (norm_fusion_forward f x w b (some rm) (some rv) eps true mom cl dt true sa)
        AliasTarget.runningVar
      = some (update_running_stat sa mom (batchSizeQ x.shape)⁻¹ dt
          (fdVar x (reductionAxes sa x.shape.length cl) 1) rv) := rfl

theorem writeTo_train_runningVar_biased (f : ℚ → ℚ) (x rm rv : Tensor)
    (w b : Option Tensor) (eps mom : ℚ) (cl : Bool) (dt : DataType)
    (sa : List NamedAxis) :
    writeTo (norm_fusion_forward f x w b (some rm) (some rv) eps true mom cl dt false sa)
        AliasTarget.runningVar
      = some (update_running_stat sa mom (batchSizeQ x.shape)⁻¹ dt
          (mulS (fdVar x (reductionAxes sa x.shape.length cl) 0)
            (numFeaturesQ x.shape (reductionAxes sa x.shape.length cl) /
              (numFeaturesQ x.shape (reductionAxes sa x.shape.length cl) - 1))) rv) := rfl

theorem resOut_train_some (f : ℚ → ℚ) (x rm rv : Tensor) (w b : Option Tensor)
    (eps mom : ℚ) (cl : Bool) (dt : DataType) (ub : Bool) (sa : List NamedAxis)
    (i : List ℕ) :
    (resOut (norm_fusion_forward f x w b (some rm) (some rv) eps true mom cl dt ub sa)).data i
      = (x.data i - (fdMean x (reductionAxes sa x.shape.length cl)).data
            (selectDims (statDims sa x.shape.length cl) i))
        * f ((fdVar x (reductionAxes sa x.shape.length cl) (if ub then 1 else 0)).data
            (selectDims (statDims sa x.shape.length cl) i) + eps)
        * optAt w 1 (selectDims (statDimsNoBatch sa x.shape.length cl) i)
        + optAt b 0 (selectDims (statDimsNoBatch sa x.shape.length cl) i) := by
  rcases w with _ | w <;> rcases b with _ | b <;>
    simp [norm_fusion_forward, resOut, optAt, broadcast_in_dim, subT, mulT, addT, addS,
      rsqrtT, var_mean, mul_one, add_zero]

theorem resOut_train_none (f : ℚ → ℚ) (x : Tensor) (w b : Option Tensor)
    (eps mom : ℚ) (uis : Bool) (cl : Bool) (dt : DataType) (ub : Bool)
    (sa : List NamedAxis) (i : List ℕ) :
    (resOut (norm_fusion_forward f x w b none none eps uis mom cl dt ub sa)).data i
      = (x.data i - (fdMean x (reductionAxes sa x.shape.length cl)).data
            (selectDims (statDims sa x.shape.length cl) i))
        * f ((fdVar x (reductionAxes sa x.shape.length cl) (if ub then 1 else 0)).data
            (selectDims (statDims sa x.shape.length cl) i) + eps)
        * optAt w 1 (selectDims (statDimsNoBatch sa x.shape.length cl) i)
        + optAt b 0 (selectDims (statDimsNoBatch sa x.shape.length cl) i) := by
  rcases w with _ | w <;> rcases b with _ | b <;>
    simp [norm_fusion_forward, resOut, optAt, broadcast_in_dim, subT, mulT, addT, addS,
      rsqrtT, var_mean, mul_one, add_zero]

theorem resOut_inference (f : ℚ → ℚ) (x rm rv : Tensor) (w b : Option Tensor)
    (eps mom : ℚ) (cl : Bool) (dt : DataType) (ub : Bool) (sa : List NamedAxis)
    (i : List ℕ) :
    (resOut (norm_fusion_forward f x w b (some rm) (some rv) eps false mom cl dt ub sa)).data i
      = (x.data i - rm.data (selectDims (statDimsNoBatch sa x.shape.length cl) i))
        * f (rv.data (selectDims (statDimsNoBatch sa x.shape.length cl) i) + eps)
        * optAt w 1 (selectDims (statDimsNoBatch sa x.shape.length cl) i)
        + optAt b 0 (selectDims (statDimsNoBatch sa x.shape.length cl) i) := by
  rcases w with _ | w <;> rcases b with _ | b <;>
    simp [norm_fusion_forward, resOut, optAt, broadcast_in_dim, subT, mulT, addT, addS,
      rsqrtT, mul_one, add_zero]

theorem resMean_inference (f : ℚ → ℚ) (x rm rv : Tensor) (w b : Option Tensor)
    (eps mom : ℚ) (cl : Bool) (dt : DataType) (ub : Bool) (sa : List NamedAxis) :
    resMean (norm_fusion_forward f x w b (some rm) (some rv) eps false mom cl dt ub sa)
      = rm := rfl

theorem resInvstd_inference (f : ℚ → ℚ) (x rm rv : Tensor) (w b : Option Tensor)
    (eps mom : ℚ) (cl : Bool) (dt : DataType) (ub : Bool) (sa : List NamedAxis) :
    resInvstd (norm_fusion_forward f x w b (some rm) (some rv) eps false mom cl dt ub sa)
      = rsqrtT f (addS rv eps) := rfl

theorem bwdGradWeight_some_none (x go mean invstd w : Tensor) (b : Option Tensor)
    (uis cl : Bool) (dt : DataType) (sa : List NamedAxis) :
    bwdGradWeight (norm_fusion_backward x go mean invstd (some w) b none none uis cl dt sa)
      = some (sumAxes
          (mulT
            (sumAxes
              (mulT go (subT x (broadcast_in_dim mean x.shape (bwdBcastDims x.shape.length cl))))
              (reductionAxes sa x.shape.length cl))
            invstd) [0]) := rfl

theorem bwdGradBias_some_none (x go mean invstd b : Tensor) (w : Option Tensor)
    (uis cl : Bool) (dt : DataType) (sa : List NamedAxis) :
    bwdGradBias (norm_fusion_backward x go mean invstd w (some b) none none uis cl dt sa)
      = some (sumAxes (sumAxes go (reductionAxes sa x.shape.length cl)) [0]) := rfl

theorem bwdGradInput_inference_weight (x go mean invstd w : Tensor) (b : Option Tensor)
    (cl : Bool) (dt : DataType) (sa : List NamedAxis) :
    bwdGradInput (norm_fusion_backward x go mean invstd (some w) b none none false cl dt sa)
      = mulT go
          (mulT (broadcast_in_dim invstd x.shape (bwdBcastDims x.shape.length cl))
            (broadcast_in_dim w x.shape [0])) := rfl

/-- C5: in `norm_fusion_backward` the saved mean, invStd, gradMean and
projScale are all broadcast into exactly the dimension indices
`[0, channel_dim]` (the list `bwdBcastDims`, used at each of the four
broadcast sites), independent of the active axis role set, and these
broadcast dimensions coincide with the forward pass's `statDims` exactly
when the role set contains both BATCH and CHANNEL. -/
theorem c5_backward_broadcast_dims_fixed (sa : List NamedAxis) (n : ℕ) (cl : Bool) :
    bwdBcastDims n cl = [0, channelDim n cl]
    ∧ (statDims sa n cl = bwdBcastDims n cl ↔
        (NamedAxis.BATCH ∈ sa ∧ NamedAxis.CHANNEL ∈ sa)) := by
  constructor
  · rfl
  · by_cases hB : NamedAxis.BATCH ∈ sa <;> by_cases hC : NamedAxis.CHANNEL ∈ sa <;>
      simp [statDims, bwdBcastDims, hB, hC]

/-- C9: both graph-construction entry points fail with the initial assertion
exactly when one of running mean and running variance is supplied and the
other is absent; with both present or both absent no error is raised. -/
theorem c9_xor_running_stats_check (f : ℚ → ℚ) (x : Tensor)
    (w b rm rv : Option Tensor) (eps mom : ℚ) (uis cl : Bool) (dt : DataType)
    (ub : Bool) (sa : List NamedAxis)
    (x2 go2 mean2 invstd2 : Tensor) (w2 b2 rm2 rv2 : Option Tensor) (uis2 cl2 : Bool)
    (dt2 : DataType) (sa2 : List NamedAxis) :
    (isErr (norm_fusion_forward f x w b rm rv eps uis mom cl dt ub sa)
        = (rm.isNone != rv.isNone))
    ∧ (isErr (norm_fusion_backward x2 go2 mean2 invstd2 w2 b2 rm2 rv2 uis2 cl2 dt2 sa2)
        = (rm2.isNone != rv2.isNone)) := by
  constructor
  · rcases rm with _ | rm <;> rcases rv with _ | rv <;> cases uis <;> rfl
  · rcases rm2 with _ | rm2 <;> rcases rv2 with _ | rv2 <;> rfl

/-- C4: in `NormNVFuserFunction.backward`, when the input element type is Half
or BFloat16 and a bias is present, the bias gradient is cast but never
registered with `fd.add_output`, so the result list is one entry short and the
read of `res[c]` for the bias gradient fails (no bias gradient is returned);
with a full-precision element type the bias gradient is returned.  This
refutes the claim that a bias gradient is returned for every element type. -/
theorem c4_reduced_precision_bias_gradient_dropped :
    backward_outputs_added true true DataType.Half
        = [BwdOutputTag.gradInput, BwdOutputTag.gradWeight]
    ∧ backward_extract_grad_bias (backward_outputs_added true true DataType.Half)
        true true = none
    ∧ backward_extract_grad_bias (backward_outputs_added true true DataType.BFloat16)
        true true = none
    ∧ backward_extract_grad_bias (backward_outputs_added false true DataType.Half)
        false true = none
    ∧ backward_extract_grad_bias (backward_outputs_added true true DataType.Float)
        true true = some BwdOutputTag.gradBias := by
  decide

/-- C8: the running statistics are written (via aliasing outputs) by the
forward graph exactly when running statistics are supplied and statistics are
computed fresh, and the backward graph never emits an aliasing write. -/
theorem c8_running_stats_write_condition (f : ℚ → ℚ) (x : Tensor)
    (w b rm rv : Option Tensor) (eps mom : ℚ) (uis cl : Bool) (dt : DataType)
    (ub : Bool) (sa : List NamedAxis)
    (x2 go2 mean2 invstd2 : Tensor) (w2 b2 rm2 rv2 : Option Tensor) (uis2 cl2 : Bool)
    (dt2 : DataType) (sa2 : List NamedAxis)
    (h : rv.isNone = rm.isNone) :
    aliasTargets (norm_fusion_forward f x w b rm rv eps uis mom cl dt ub sa)
        = (if uis && rm.isSome then [AliasTarget.runningMean, AliasTarget.runningVar]
           else [])
    ∧ bwdAliasWrites (norm_fusion_backward x2 go2 mean2 invstd2 w2 b2 rm2 rv2
        uis2 cl2 dt2 sa2) = [] := by
  constructor
  · rcases rm with _ | rm <;> rcases rv with _ | rv <;> cases uis <;>
      first
        | rfl
        | (exfalso; simp at h)
  · rcases rm2 with _ | rm2 <;> rcases rv2 with _ | rv2 <;> rfl

/-- Witness for C8 at a concrete training-mode call with running statistics
supplied (both aliasing writes emitted) and a concrete backward call. -/
theorem c8_running_stats_write_condition_witness :
    aliasTargets (norm_fusion_forward (fun q => q) c1x none none (some c1rm) (some c1rv)
        (1/100) true (1/2) false DataType.Float false [NamedAxis.CHANNEL])
        = (if true && (some c1rm).isSome
           then [AliasTarget.runningMean, AliasTarget.runningVar] else [])
    ∧ bwdAliasWrites (norm_fusion_backward c2x c2go c2mean c2invstd (some c2w) (some c2b)
        none none true false DataType.Float [NamedAxis.CHANNEL]) = [] :=
  c8_running_stats_write_condition (fun q => q) c1x none none (some c1rm) (some c1rv)
    (1/100) (1/2) true false DataType.Float false [NamedAxis.CHANNEL]
    c2x c2go c2mean c2invstd (some c2w) (some c2b) none none true false DataType.Float
    [NamedAxis.CHANNEL] rfl

/-- C1: for role set `{CHANNEL}` with `unbiased = False` and momentum `1/2`, a
training-mode forward step from zero running statistics writes back
`momentum * batchMean / batch_size` (here `3/4`), not `momentum * batchMean`
(here `3/2`): the momentum-merged statistic is divided by the batch size even
though BATCH is not in the role set.  This refutes the claim. -/
theorem c1_running_mean_update_divides_by_batch_size :
    optAt (writeTo c1fwd AliasTarget.runningMean) 0 [1] = 3/4
    ∧ (fdMean c1x (reductionAxes [NamedAxis.CHANNEL] c1x.shape.length false)).data [1] = 3
    ∧ optAt (writeTo c1fwd AliasTarget.runningMean) 0 [1]
        ≠ (1/2) * (fdMean c1x (reductionAxes [NamedAxis.CHANNEL] c1x.shape.length false)).data [1] := by
  have hlen : c1x.shape.length = 2 := rfl
  have hred : reductionAxes [NamedAxis.CHANNEL] 2 false = [0] := by
    simp [reductionAxes, statDims, channelDim, List.range_succ]
  have hmean : (fdMean c1x [0]).data [1] = 3 := by
    norm_num [fdMean, sumAxes, allIdx, selectDims, removeDims, prodQ, mergeIdx,
      mergeIdxAux, c1x, List.range_succ]
  have hbs : batchSizeQ c1x.shape = 2 := by
    norm_num [batchSizeQ, c1x]
  have hnb : ¬ (NamedAxis.BATCH ∈ [NamedAxis.CHANNEL]) := by simp
  have hne : ¬ (NamedAxis.BATCH = NamedAxis.CHANNEL) := by decide
  have hnf : ¬ (DataType.Float ∈ [DataType.Half, DataType.BFloat16]) := by simp
  have hwrite : optAt (writeTo c1fwd AliasTarget.runningMean) 0 [1] = 3/4 := by
    rw [show c1fwd = norm_fusion_forward (fun q => q) c1x none none (some c1rm) (some c1rv)
        (1/100) true (1/2) false DataType.Float false [NamedAxis.CHANNEL] from rfl,
      writeTo_train_runningMean, hlen, hred]
    norm_num [optAt, update_running_stat, mulS, addT, fdCast, hmean, hbs, hnb, hne, hnf,
      c1rm]
  refine ⟨hwrite, by rw [hlen, hred]; exact hmean, ?_⟩
  rw [hwrite, hlen, hred, hmean]
  norm_num

/-- C2: for role set `{CHANNEL}` (BATCH absent) the weight and bias gradients
of `norm_fusion_backward` are still summed over axis `0` of the statistics
tensor — which is the channel axis here — collapsing the per-channel
gradients (`[2, 3]` and `[1, 1]`) to the scalars `5` and `2` with empty
shape, although the weight and bias have shape `[2]`.  This refutes the claim
that no batch-axis reduction is applied for role sets without BATCH. -/
theorem c2_grad_weight_bias_reduced_unconditionally :
    optShape (bwdGradWeight c2bwd) = some []
    ∧ optAt (bwdGradWeight c2bwd) 0 [] = 5
    ∧ optShape (bwdGradBias c2bwd) = some []
    ∧ optAt (bwdGradBias c2bwd) 0 [] = 2
    ∧ c2w.shape = [2] ∧ c2b.shape = [2] := by
  have hred : reductionAxes [NamedAxis.CHANNEL] 2 false = [0] := by
    simp [reductionAxes, statDims, channelDim, List.range_succ]
  have hlen : c2x.shape.length = 2 := rfl
  have hw := bwdGradWeight_some_none c2x c2go c2mean c2invstd c2w (some c2b)
    true false DataType.Float [NamedAxis.CHANNEL]
  have hb := bwdGradBias_some_none c2x c2go c2mean c2invstd c2b (some c2w)
    true false DataType.Float [NamedAxis.CHANNEL]
  rw [hlen, hred] at hw hb
  have hc2bwd : c2bwd = norm_fusion_backward c2x c2go c2mean c2invstd (some c2w) (some c2b)
      none none true false DataType.Float [NamedAxis.CHANNEL] := rfl
  refine ⟨?_, ?_, ?_, ?_, rfl, rfl⟩
  · rw [hc2bwd, hw]
    norm_num [optShape, sumAxes, mulT, subT, removeDims, broadcast_in_dim, selectDims,
      c2x, c2go, List.range_succ]
  · rw [hc2bwd, hw]
    norm_num [optAt, sumAxes, mulT, subT, broadcast_in_dim, selectDims, removeDims,
      allIdx, mergeIdx, mergeIdxAux, bwdBcastDims, channelDim,
      c2x, c2go, c2mean, c2invstd, List.range_succ]
  · rw [hc2bwd, hb]
    norm_num [optShape, sumAxes, removeDims, selectDims, c2go, List.range_succ]
  · rw [hc2bwd, hb]
    norm_num [optAt, sumAxes, selectDims, removeDims, allIdx, mergeIdx, mergeIdxAux,
      c2go, List.range_succ]

/-- C3: in `norm_fusion_backward` the weight entering `gradScale` is broadcast
into dimension `0` (the batch dimension), not the channel dimension: on the
inference path with all-ones gradOutput and invStd and weight `[3, 5]`, the
input gradient at index `[0, 1, 0]` (batch 0, channel 1) is `3` — the weight
of batch index 0 — instead of `5`, the channel-aligned value
`gradOutput * invStd * weight[channel]` required by the claim. -/
theorem c3_grad_scale_weight_broadcast_at_batch_dim :
    (bwdGradInput c3bwd).data [0, 1, 0] = 3
    ∧ c3go.data [0, 1, 0] * c3invstd.data [0, 1] * c3w.data [1] = 5
    ∧ (bwdGradInput c3bwd).data [0, 1, 0]
        ≠ c3go.data [0, 1, 0] * c3invstd.data [0, 1] * c3w.data [1] := by
  have hg := bwdGradInput_inference_weight c3x c3go c3mean c3invstd c3w none
    false DataType.Float [NamedAxis.BATCH, NamedAxis.CHANNEL]
  have hc3bwd : c3bwd = norm_fusion_backward c3x c3go c3mean c3invstd (some c3w) none
      none none false false DataType.Float [NamedAxis.BATCH, NamedAxis.CHANNEL] := rfl
  have hval : (bwdGradInput c3bwd).data [0, 1, 0] = 3 := by
    rw [hc3bwd, hg]
    norm_num [mulT, broadcast_in_dim, selectDims, bwdBcastDims, channelDim,
      c3go, c3invstd, c3w, c3x]
  have hclaim : c3go.data [0, 1, 0] * c3invstd.data [0, 1] * c3w.data [1] = 5 := by
    norm_num [c3go, c3invstd, c3w]
  refine ⟨hval, hclaim, ?_⟩
  rw [hval, hclaim]
  norm_num

theorem tensor_ext (a b : Tensor) (h1 : a.shape = b.shape)
    (h2 : ∀ i, a.data i = b.data i) : a = b := by
  cases a with
  | mk s1 d1 =>
    cases b with
    | mk s2 d2 =>
      simp only [Tensor.mk.injEq]
      exact ⟨h1, funext h2⟩

/-- C6: in a training-mode forward call that updates running statistics, the
variance merged into the running-variance update is the Bessel-corrected
(unbiased) batch variance regardless of the `unbiased` flag: with at least two
reduced elements, the running-variance aliasing write under `unbiased = false`
(biased variance rescaled by `numFeatures / (numFeatures - 1)` before the
momentum merge) equals the write under `unbiased = true` (correction-1
variance used as computed). -/
theorem c6_running_var_update_always_unbiased (f : ℚ → ℚ) (x rm rv : Tensor)
    (w b : Option Tensor) (eps mom : ℚ) (cl : Bool) (dt : DataType)
    (sa : List NamedAxis)
    (hF : 2 ≤ (selectDims (reductionAxes sa x.shape.length cl) x.shape).prod) :
    writeTo (norm_fusion_forward f x w b (some rm) (some rv) eps true mom cl dt false sa)
        AliasTarget.runningVar
      = writeTo (norm_fusion_forward f x w b (some rm) (some rv) eps true mom cl dt true sa)
        AliasTarget.runningVar
    ∧ writeTo (norm_fusion_forward f x w b (some rm) (some rv) eps true mom cl dt true sa)
        AliasTarget.runningVar
      = some (update_running_stat sa mom (batchSizeQ x.shape)⁻¹ dt
          (fdVar x (reductionAxes sa x.shape.length cl) 1) rv) := by
  have h2 : (2:ℚ) ≤ prodQ (selectDims (reductionAxes sa x.shape.length cl) x.shape) := by
    rw [prodQ_eq_cast]
    exact_mod_cast hF
  have hne : prodQ (selectDims (reductionAxes sa x.shape.length cl) x.shape) ≠ 0 := by
    intro h
    rw [h] at h2
    norm_num at h2
  have hne1 : prodQ (selectDims (reductionAxes sa x.shape.length cl) x.shape) - 1 ≠ 0 := by
    intro h
    have : prodQ (selectDims (reductionAxes sa x.shape.length cl) x.shape) = 1 := by
      linarith
    rw [this] at h2
    norm_num at h2
  have key : mulS (fdVar x (reductionAxes sa x.shape.length cl) 0)
      (numFeaturesQ x.shape (reductionAxes sa x.shape.length cl) /
        (numFeaturesQ x.shape (reductionAxes sa x.shape.length cl) - 1))
      = fdVar x (reductionAxes sa x.shape.length cl) 1 := by
    apply tensor_ext
    · rfl
    · intro r
      simp only [mulS, fdVar, numFeaturesQ, Nat.cast_zero, Nat.cast_one, sub_zero]
      rw [div_mul_div_comm, mul_comm
        (((allIdx (selectDims (reductionAxes sa x.shape.length cl) x.shape)).map fun av =>
          (x.data (mergeIdx x.shape.length (reductionAxes sa x.shape.length cl) av r) -
            (fdMean x (reductionAxes sa x.shape.length cl)).data r) *
          (x.data (mergeIdx x.shape.length (reductionAxes sa x.shape.length cl) av r) -
            (fdMean x (reductionAxes sa x.shape.length cl)).data r)).sum),
        mul_div_mul_left _ _ hne]
  constructor
  · rw [writeTo_train_runningVar_biased, writeTo_train_runningVar_unbiased, key]
  · exact writeTo_train_runningVar_unbiased f x rm rv w b eps mom cl dt sa

/-- Witness for C6 at a concrete `{CHANNEL}`-role call with two batch samples
(two reduced elements per channel). -/
theorem c6_running_var_update_always_unbiased_witness :
    2 ≤ (selectDims (reductionAxes [NamedAxis.CHANNEL] c1x.shape.length false) c1x.shape).prod
    ∧ (writeTo (norm_fusion_forward (fun q => q) c1x none none (some c1rm) (some c1rv)
          (1/100) true (1/2) false DataType.Float false [NamedAxis.CHANNEL])
          AliasTarget.runningVar
        = writeTo (norm_fusion_forward (fun q => q) c1x none none (some c1rm) (some c1rv)
          (1/100) true (1/2) false DataType.Float true [NamedAxis.CHANNEL])
          AliasTarget.runningVar
      ∧ writeTo (norm_fusion_forward (fun q => q) c1x none none (some c1rm) (some c1rv)
          (1/100) true (1/2) false DataType.Float true [NamedAxis.CHANNEL])
          AliasTarget.runningVar
        = some (update_running_stat [NamedAxis.CHANNEL] (1/2) (batchSizeQ c1x.shape)⁻¹
            DataType.Float
            (fdVar c1x (reductionAxes [NamedAxis.CHANNEL] c1x.shape.length false) 1) c1rv)) :=
  ⟨by decide,
   c6_running_var_update_always_unbiased (fun q => q) c1x c1rm c1rv none none (1/100) (1/2)
     false DataType.Float [NamedAxis.CHANNEL] (by decide)⟩

/-- C7: for an inference-mode forward call (`use_input_stats = false`, running
statistics supplied) the normalized output is
`(x - broadcast(running_mean)) * rsqrt(running_var + eps)` (times the weight
and plus the bias when present), with both running statistics broadcast over
`statDimsNoBatch` only, and the returned statistics pair is
`(running_mean, rsqrt(running_var + eps))`. -/
theorem c7_inference_normalization_formula (f : ℚ → ℚ) (x rm rv : Tensor)
    (w b : Option Tensor) (eps mom : ℚ) (cl : Bool) (dt : DataType) (ub : Bool)
    (sa : List NamedAxis) :
    (∀ i, (resOut (norm_fusion_forward f x w b (some rm) (some rv) eps false mom cl dt
          ub sa)).data i
        = (x.data i - rm.data (selectDims (statDimsNoBatch sa x.shape.length cl) i))
          * f (rv.data (selectDims (statDimsNoBatch sa x.shape.length cl) i) + eps)
          * optAt w 1 (selectDims (statDimsNoBatch sa x.shape.length cl) i)
          + optAt b 0 (selectDims (statDimsNoBatch sa x.shape.length cl) i))
    ∧ resMean (norm_fusion_forward f x w b (some rm) (some rv) eps false mom cl dt ub sa)
        = rm
    ∧ ∀ j, (resInvstd (norm_fusion_forward f x w b (some rm) (some rv) eps false mom cl dt
          ub sa)).data j
        = f (rv.data j + eps) :=
  ⟨fun i => resOut_inference f x rm rv w b eps mom cl dt ub sa i,
   resMean_inference f x rm rv w b eps mom cl dt ub sa,
   fun j => by rw [resInvstd_inference]; rfl⟩

/-- C10: a training-mode forward call on an input that is constant along the
reduction axes produces exactly the broadcast bias (or zero without a bias) at
every in-range index, for every weight, every `rsqrt` value, and every
`unbiased` flag, because `x - broadcast(mean)` vanishes pointwise. -/
theorem c10_constant_input_yields_bias (f : ℚ → ℚ) (x : Tensor) (g : List ℕ → ℚ)
    (w b rm rv : Option Tensor) (eps mom : ℚ) (cl : Bool) (dt : DataType) (ub : Bool)
    (sa : List NamedAxis)
    (hrm : rv.isNone = rm.isNone)
    (hn : 2 ≤ x.shape.length)
    (hx : ∀ j, x.data j = g (selectDims (statDims sa x.shape.length cl) j))
    (hF : 0 < (selectDims (reductionAxes sa x.shape.length cl) x.shape).prod) :
    ∀ i, (resOut (norm_fusion_forward f x w b rm rv eps true mom cl dt ub sa)).data i
      = optAt b 0 (selectDims (statDimsNoBatch sa x.shape.length cl) i) := by
  intro i
  have hmean := fdMean_of_stat_const sa cl x g hn hx hF i
  rcases rm with _ | rm0 <;> rcases rv with _ | rv0
  · rw [resOut_train_none, hmean, hx i, sub_self, zero_mul, zero_mul, zero_add]
  · exact absurd hrm (by simp)
  · exact absurd hrm (by simp)
  · rw [resOut_train_some, hmean, hx i, sub_self, zero_mul, zero_mul, zero_add]

/-- Witness for C10 on the 4-sample, 3-channel, 1-spatial constant-per-slice
input with role set `{BATCH, CHANNEL}`, weight and bias present. -/
theorem c10_constant_input_yields_bias_witness :
    2 ≤ c10x.shape.length
    ∧ 0 < (selectDims (reductionAxes [NamedAxis.BATCH, NamedAxis.CHANNEL]
          c10x.shape.length false) c10x.shape).prod
    ∧ (resOut (norm_fusion_forward (fun q => q) c10x (some c10w) (some c10b) none none
          (1/100) true (1/10) false DataType.Float false
          [NamedAxis.BATCH, NamedAxis.CHANNEL])).data [2, 1, 0]
        = optAt (some c10b) 0 (selectDims (statDimsNoBatch
            [NamedAxis.BATCH, NamedAxis.CHANNEL] c10x.shape.length false) [2, 1, 0]) :=
  ⟨by decide, by decide,
   c10_constant_input_yields_bias (fun q => q) c10x c10g (some c10w) (some c10b) none none
     (1/100) (1/10) false DataType.Float false [NamedAxis.BATCH, NamedAxis.CHANNEL]
     rfl (by decide) (fun j => rfl) (by decide) [2, 1, 0]⟩
